import Mathlib

/-!
Verification of the retry / error-classification core of the
cover-letter-generator repository.

The definitions below are a shallow embedding of
`src/utils/errorHandler.ts` (error taxonomy and the `ErrorHandler`
classifier) and `src/services/retryService.ts` (the stateless
`RetryService.executeWithRetry` engine and the stateful `RetryManager`).
JavaScript numbers are modelled as `ℚ` where delays and multipliers are
involved (all arithmetic in the claims is exact in ℚ), attempts as `Nat`,
`undefined`/optional fields as `Option`, thrown exceptions as explicit
result constructors, and callback invocations as event traces.
-/

/-- The `ErrorType` enum from `src/types/index.ts`. -/
inductive ErrorType where
  | API_KEY_MISSING
  | API_KEY_INVALID
  | NETWORK_ERROR
  | API_RATE_LIMIT
  | API_CONTENT_POLICY
  | API_GENERAL_ERROR
  | PDF_GENERATION_ERROR
  | VALIDATION_ERROR
  | UNKNOWN_ERROR
deriving DecidableEq, Repr

/-- The `AppError` interface from `src/types/index.ts`: `code` is
`string | number`, `details` and `code` optional. -/
structure AppError where
  type : ErrorType
  message : String
  details : Option String := none
  code : Option (String ⊕ Int) := none
  retryable : Bool
deriving DecidableEq, Repr

/-- The `ApiResponse` shape from `src/types/index.ts` (the `data` payload is
irrelevant to error processing and omitted). -/
structure ApiResp where
  success : Bool
  error : Option String := none
  statusCode : Option Int := none
deriving DecidableEq, Repr

/-- A native JavaScript `Error`: a message and an optional stack. -/
structure JsError where
  message : String
  stack : Option String := none
deriving DecidableEq, Repr

/-- The `unknown` input domain of `ErrorHandler.processError`, split by the
branch of the classifier a value hits (the branches are tried in this
order in the source). `other` carries `String(value)` of the value. -/
inductive ErrValue where
  | enhanced (e : AppError)
  | appError (e : AppError)
  | apiResponse (r : ApiResp)
  | jsError (e : JsError)
  | other (str : String)
deriving DecidableEq, Repr

/-- Boolean prefix test on character lists. -/
def isPrefixList : List Char → List Char → Bool
  | [], _ => true
  | _ :: _, [] => false
  | a :: as, b :: bs => a == b && isPrefixList as bs

/-- Boolean infix (contiguous-substring) test on character lists. -/
def isInfixList (sub : List Char) : List Char → Bool
  | [] => sub.isEmpty
  | b :: bs => isPrefixList sub (b :: bs) || isInfixList sub bs

/-- JavaScript `haystack.includes(needle)` substring test. -/
def includes (s sub : String) : Bool :=
  isInfixList sub.toList s.toList

/-- JavaScript `s || d` for strings: the empty string is falsy. -/
def jsStrOr (s : Option String) (d : String) : String :=
  match s with
  | some s => if s = "" then d else s
  | none => d

/-- JavaScript `n || d` for numbers: `0` is falsy. -/
def jsIntOr (n : Option Int) (d : Int) : Int :=
  match n with
  | some n => if n = 0 then d else n
  | none => d

/-- Embeds `ErrorHandler.processApiResponseError`: maps an unsuccessful
`ApiResponse` to an `AppError` by `statusCode`. -/
def processApiResponseError (r : ApiResp) : AppError :=
  let message := jsStrOr r.error "Unknown API error"
  let tr : ErrorType × Bool :=
    match r.statusCode with
    | some 401 =>
        (if includes message "API key" then .API_KEY_INVALID else .API_KEY_MISSING, false)
    | some 429 => (.API_RATE_LIMIT, true)
    | some 400 =>
        (if includes message "content policy" then .API_CONTENT_POLICY else .VALIDATION_ERROR, false)
    | some 0 => (.NETWORK_ERROR, true)
    | some 408 => (.NETWORK_ERROR, true)
    | _ => (.API_GENERAL_ERROR, true)
  { type := tr.1, message := message,
    code := some (Sum.inr (jsIntOr r.statusCode 500)), retryable := tr.2 }

/-- Embeds `ErrorHandler.processJavaScriptError`: classifies a native `Error` by
keywords of its message. -/
def processJavaScriptError (e : JsError) : AppError :=
  if includes e.message "fetch" || includes e.message "network" then
    { type := .NETWORK_ERROR, message := "Network connection failed",
      details := some e.message, retryable := true }
  else if includes e.message "validation" || includes e.message "required" then
    { type := .VALIDATION_ERROR, message := e.message, retryable := false }
  else
    { type := .UNKNOWN_ERROR,
      message := jsStrOr (some e.message) "An unexpected error occurred",
      details := e.stack, retryable := true }

/-- Embeds `ErrorHandler.processError`: normalizes any thrown value to an
`AppError`. An `EnhancedError` is unwrapped via `toAppError` (identity on
the carried record); an `AppError`-shaped value is returned as-is; an
`ApiResponse` with `success = false` goes through the status-code map
(with `success = true` it matches no earlier branch and falls through to
the unknown-value case, whose `String(value)` is `"[object Object]"`). -/
def processError (v : ErrValue) : AppError :=
  match v with
  | .enhanced e => e
  | .appError e => e
  | .apiResponse r =>
      if r.success then
        { type := .UNKNOWN_ERROR, message := "An unexpected error occurred",
          details := some "[object Object]", retryable := true }
      else processApiResponseError r
  | .jsError e => processJavaScriptError e
  | .other str =>
      { type := .UNKNOWN_ERROR, message := "An unexpected error occurred",
        details := some str, retryable := true }

example :
    (processError (.apiResponse ⟨false, some "Invalid API key", some 401⟩)).type
      = .API_KEY_INVALID := by decide

example :
    (processError (.apiResponse ⟨false, some "x", some 0⟩)).retryable = true := by
  decide

/-- The default retryable error kinds shared by `RetryService.defaultOptions`,
`RetryManager`'s constructor and `DEFAULT_RETRY_CONFIG`. -/
def defaultRetryableErrors : List ErrorType :=
  [.NETWORK_ERROR, .API_RATE_LIMIT, .API_GENERAL_ERROR, .UNKNOWN_ERROR]

/-- The merged engine configuration `{ ...defaultOptions, ...options }` used
inside `RetryService.executeWithRetry` (callbacks are modelled by the event
trace instead of function fields). -/
structure RetryConfig where
  maxAttempts : Nat
  baseDelay : ℚ
  backoffMultiplier : ℚ
  retryableErrors : List ErrorType
deriving Repr

/-- Embeds `RetryService.isRetryableError`. -/
def isRetryableError (e : AppError) (retryableErrors : List ErrorType) : Bool :=
  e.retryable && retryableErrors.contains e.type

/-- Embeds `RetryService.calculateDelay`: `baseDelay * backoffMultiplier ^ (attempt - 1)`. -/
def calculateDelay (attempt : Nat) (baseDelay backoffMultiplier : ℚ) : ℚ :=
  baseDelay * backoffMultiplier ^ (attempt - 1)

/-- Observable events of one `executeWithRetry` run: an invocation of the
wrapped operation, the `onRetry` callback, the `onMaxAttemptsReached`
callback, and an awaited delay. -/
inductive REvent where
  | opCall (attempt : Nat)
  | onRetry (attempt : Nat) (e : AppError)
  | onMaxAttemptsReached (e : AppError)
  | delayed (ms : ℚ)
deriving Repr

/-- Result of an `executeWithRetry` run: a resolved value, a rejection with
`new EnhancedError(appError)`, or the crash on the trailing
`new EnhancedError(lastError!)` when the loop body never ran
(`maxAttempts < 1`, where `lastError` is still `null`). -/
inductive RunResult (T : Type) where
  | ok (t : T)
  | err (e : AppError)
  | crash
deriving Repr

/-- The `for (let attempt = 1; attempt <= config.maxAttempts; attempt++)`
loop of `RetryService.executeWithRetry`, with `fuel` counting the
remaining iterations (`fuel = maxAttempts - attempt + 1` at every call).
The operation is modelled by the outcome of its `n`-th invocation. -/
def runLoop {T : Type} (op : Nat → Except ErrValue T) (cfg : RetryConfig) :
    Nat → Nat → RunResult T × List REvent
  | _, 0 => (.crash, [])
  | attempt, fuel + 1 =>
    match op attempt with
    | .ok t => (.ok t, [.opCall attempt])
    | .error failure =>
      let processedError := processError failure
      if ¬ isRetryableError processedError cfg.retryableErrors then
        (.err processedError, [.opCall attempt])
      else if attempt = cfg.maxAttempts then
        (.err processedError, [.opCall attempt, .onMaxAttemptsReached processedError])
      else
        let delay := calculateDelay attempt cfg.baseDelay cfg.backoffMultiplier
        let rest := runLoop op cfg (attempt + 1) fuel
        (rest.1, .opCall attempt :: .onRetry attempt processedError :: .delayed delay :: rest.2)

/-- Embeds `RetryService.executeWithRetry` on the merged configuration. -/
def executeWithRetry {T : Type} (op : Nat → Except ErrValue T) (cfg : RetryConfig) :
    RunResult T × List REvent :=
  runLoop op cfg 1 cfg.maxAttempts

/-- Number of operation invocations recorded in a trace. -/
def opCalls (t : List REvent) : Nat :=
  (t.filter fun e => match e with | .opCall _ => true | _ => false).length

/-- The `(attemptNumber, error)` arguments of the `onRetry` callback
invocations recorded in a trace, in order. -/
def retryEvents (t : List REvent) : List (Nat × AppError) :=
  t.filterMap fun e => match e with | .onRetry n a => some (n, a) | _ => none

/-- The arguments of the `onMaxAttemptsReached` callback invocations
recorded in a trace, in order. -/
def exhaustedEvents (t : List REvent) : List AppError :=
  t.filterMap fun e => match e with | .onMaxAttemptsReached a => some a | _ => none

/-- The awaited delays recorded in a trace, in order. -/
def delayEvents (t : List REvent) : List ℚ :=
  t.filterMap fun e => match e with | .delayed d => some d | _ => none

/-- Closed form of a `runLoop` run in which every invocation fails and every
classified error passes the retryability check: the run ends in exhaustion
at attempt `maxAttempts`, with one `opCall` per remaining attempt and one
`onRetry`/`delayed` pair per non-final attempt. -/
theorem runLoop_allFail {T : Type} (op : Nat → Except ErrValue T) (cfg : RetryConfig)
    (failure : Nat → ErrValue)
    (hop : ∀ n, op n = .error (failure n))
    (hr : ∀ n, isRetryableError (processError (failure n)) cfg.retryableErrors = true) :
    ∀ fuel attempt, 1 ≤ fuel → attempt + fuel = cfg.maxAttempts + 1 →
      (runLoop op cfg attempt fuel).1 = .err (processError (failure cfg.maxAttempts)) ∧
      opCalls (runLoop op cfg attempt fuel).2 = fuel ∧
      retryEvents (runLoop op cfg attempt fuel).2 =
        (List.range' attempt (fuel - 1)).map
          (fun i => (i, processError (failure i))) ∧
      exhaustedEvents (runLoop op cfg attempt fuel).2 =
        [processError (failure cfg.maxAttempts)] ∧
      delayEvents (runLoop op cfg attempt fuel).2 =
        (List.range' attempt (fuel - 1)).map
          (fun i => calculateDelay i cfg.baseDelay cfg.backoffMultiplier) := by
  intro fuel
  induction fuel with
  | zero => intro a h _; exact absurd h (by decide)
  | succ fuel ih =>
    intro a _ hsum
    simp only [runLoop, hop a, hr a]
    by_cases ha : a = cfg.maxAttempts
    · have hf0 : fuel = 0 := by omega
      subst hf0
      subst ha
      simp [opCalls, retryEvents, exhaustedEvents, delayEvents]
    · have hfuel : 1 ≤ fuel := by omega
      obtain ⟨h1, h2, h3, h4, h5⟩ := ih (a + 1) hfuel (by omega)
      obtain ⟨k, hk⟩ : ∃ k, fuel = k + 1 := ⟨fuel - 1, by omega⟩
      subst hk
      simp only [ha, if_false, ite_false, Nat.add_sub_cancel, List.range'_succ,
        List.map_cons, opCalls, retryEvents, exhaustedEvents, delayEvents,
        List.filter_cons, List.filterMap_cons] at *
      simp_all [opCalls, retryEvents, exhaustedEvents, delayEvents]

/-- A default engine configuration (`maxAttempts 3, baseDelay 1000,
backoffMultiplier 2`) used for concrete runs. -/
def engCfg : RetryConfig :=
  { maxAttempts := 3, baseDelay := 1000, backoffMultiplier := 2,
    retryableErrors := defaultRetryableErrors }

/-- Variant of `engCfg` with `maxAttempts = 4`. -/
def engCfg4 : RetryConfig := { engCfg with maxAttempts := 4 }

/-- A failure classified as `API_RATE_LIMIT` (retryable). -/
def rateLimited : ErrValue := .apiResponse ⟨false, some "Too many requests", some 429⟩

/-- A failure classified as `API_KEY_INVALID` (non-retryable). -/
def credInvalid : ErrValue := .apiResponse ⟨false, some "Invalid API key", some 401⟩

/-- C1: with `maxAttempts = M ≥ 1` and an operation whose every invocation
fails with an error that is retryable and of a retryable kind,
`executeWithRetry` invokes the operation exactly `M` times, invokes
`onRetry` exactly `M - 1` times with attempt numbers `1 .. M-1` and the
classified error of that attempt, invokes `onMaxAttemptsReached` exactly
once with the final attempt's classified error, and rejects with an
`EnhancedError` wrapping that error. -/
theorem engine_exhausts_attempts {T : Type} (op : Nat → Except ErrValue T)
    (cfg : RetryConfig) (failure : Nat → ErrValue)
    (hM : 1 ≤ cfg.maxAttempts)
    (hop : ∀ n, op n = .error (failure n))
    (hr : ∀ n, isRetryableError (processError (failure n)) cfg.retryableErrors = true) :
    (executeWithRetry op cfg).1 = .err (processError (failure cfg.maxAttempts)) ∧
    opCalls (executeWithRetry op cfg).2 = cfg.maxAttempts ∧
    retryEvents (executeWithRetry op cfg).2 =
      (List.range' 1 (cfg.maxAttempts - 1)).map
        (fun i => (i, processError (failure i))) ∧
    exhaustedEvents (executeWithRetry op cfg).2 =
      [processError (failure cfg.maxAttempts)] := by
  obtain ⟨h1, h2, h3, h4, _⟩ :=
    runLoop_allFail op cfg failure hop hr cfg.maxAttempts 1 hM (by omega)
  exact ⟨h1, h2, h3, h4⟩

theorem engine_exhausts_attempts_witness :
    (executeWithRetry (fun _ => (Except.error rateLimited : Except ErrValue Unit)) engCfg).1
      = .err (processError rateLimited) ∧
    opCalls (executeWithRetry (fun _ => (Except.error rateLimited : Except ErrValue Unit)) engCfg).2 = 3 ∧
    retryEvents (executeWithRetry (fun _ => (Except.error rateLimited : Except ErrValue Unit)) engCfg).2 =
      [(1, processError rateLimited), (2, processError rateLimited)] ∧
    exhaustedEvents (executeWithRetry (fun _ => (Except.error rateLimited : Except ErrValue Unit)) engCfg).2 =
      [processError rateLimited] := by
  have hr0 : isRetryableError (processError rateLimited) engCfg.retryableErrors = true := by
    decide
  obtain ⟨h1, h2, h3, h4⟩ :=
    engine_exhausts_attempts (fun _ => (Except.error rateLimited : Except ErrValue Unit))
      engCfg (fun _ => rateLimited) (by decide) (fun _ => rfl) (fun _ => hr0)
  exact ⟨h1, h2, by rw [h3]; decide, h4⟩

/-- C2: for any policy (`maxAttempts ≥ 1`) and an operation whose first
failure is classified as non-retryable, `executeWithRetry` invokes the
operation exactly once, awaits no delay, never invokes
`onMaxAttemptsReached`, and rejects with an `EnhancedError` wrapping the
classified error. -/
theorem engine_short_circuit {T : Type} (op : Nat → Except ErrValue T)
    (cfg : RetryConfig) (failure : ErrValue)
    (hM : 1 ≤ cfg.maxAttempts)
    (hop : op 1 = .error failure)
    (hnr : isRetryableError (processError failure) cfg.retryableErrors = false) :
    (executeWithRetry op cfg).1 = .err (processError failure) ∧
    opCalls (executeWithRetry op cfg).2 = 1 ∧
    delayEvents (executeWithRetry op cfg).2 = [] ∧
    exhaustedEvents (executeWithRetry op cfg).2 = [] := by
  obtain ⟨m, hm⟩ : ∃ m, cfg.maxAttempts = m + 1 := ⟨cfg.maxAttempts - 1, by omega⟩
  unfold executeWithRetry
  rw [hm]
  simp only [runLoop, hop]
  simp [hnr, opCalls, delayEvents, exhaustedEvents]

theorem engine_short_circuit_witness :
    (executeWithRetry (fun _ => (Except.error credInvalid : Except ErrValue Unit)) engCfg).1
      = .err (processError credInvalid) ∧
    opCalls (executeWithRetry (fun _ => (Except.error credInvalid : Except ErrValue Unit)) engCfg).2 = 1 ∧
    delayEvents (executeWithRetry (fun _ => (Except.error credInvalid : Except ErrValue Unit)) engCfg).2 = [] ∧
    exhaustedEvents (executeWithRetry (fun _ => (Except.error credInvalid : Except ErrValue Unit)) engCfg).2 = [] :=
  engine_short_circuit (fun _ => (Except.error credInvalid : Except ErrValue Unit))
    engCfg credInvalid (by decide) rfl (by decide)

/-- C3: in an always-failing retryable run, the delay awaited after the
failure of attempt `N` (before attempt `N + 1`) is
`baseDelay * backoffMultiplier ^ (N - 1)` exactly — the exponent is
`attempt - 1`, so the delay before attempt 2 equals `baseDelay`. -/
theorem engine_backoff_delays {T : Type} (op : Nat → Except ErrValue T)
    (cfg : RetryConfig) (failure : Nat → ErrValue)
    (hM : 1 ≤ cfg.maxAttempts)
    (hop : ∀ n, op n = .error (failure n))
    (hr : ∀ n, isRetryableError (processError (failure n)) cfg.retryableErrors = true) :
    delayEvents (executeWithRetry op cfg).2 =
      (List.range' 1 (cfg.maxAttempts - 1)).map
        (fun i => cfg.baseDelay * cfg.backoffMultiplier ^ (i - 1)) := by
  obtain ⟨_, _, _, _, h5⟩ :=
    runLoop_allFail op cfg failure hop hr cfg.maxAttempts 1 hM (by omega)
  simpa [calculateDelay] using h5

theorem engine_backoff_delays_witness :
    delayEvents (executeWithRetry (fun _ => (Except.error rateLimited : Except ErrValue Unit)) engCfg4).2
      = [1000, 2000, 4000] := by
  have hr0 : isRetryableError (processError rateLimited) engCfg4.retryableErrors = true := by
    decide
  rw [engine_backoff_delays (fun _ => (Except.error rateLimited : Except ErrValue Unit))
    engCfg4 (fun _ => rateLimited) (by decide) (fun _ => rfl) (fun _ => hr0)]
  have hrange : List.range' 1 (engCfg4.maxAttempts - 1) = [1, 2, 3] := by decide
  rw [hrange]
  simp only [List.map_cons, List.map_nil, engCfg4, engCfg]
  norm_num


/-- The `RetryState` record from `src/services/retryService.ts`. -/
structure RetryState where
  attempt : Nat
  maxAttempts : Nat
  lastError : Option AppError
  isRetrying : Bool
  nextRetryDelay : ℚ
deriving Repr

/-- The `RetryOptions` record from `src/types/index.ts`, numeric/list fields only
(the callbacks are modelled by the event trace). -/
structure RetryOptions where
  maxAttempts : Option Nat := none
  baseDelay : Option ℚ := none
  backoffMultiplier : Option ℚ := none
  retryableErrors : Option (List ErrorType) := none
deriving Repr

/-- JavaScript `n || d` on an optional number: `undefined` and `0` are
falsy. -/
def jsNatOr (n : Option Nat) (d : Nat) : Nat :=
  match n with
  | some n => if n = 0 then d else n
  | none => d

/-- JavaScript `q || d` on an optional number: `undefined` and `0` are
falsy. -/
def jsRatOr (q : Option ℚ) (d : ℚ) : ℚ :=
  match q with
  | some q => if q = 0 then d else q
  | none => d

/-- The `Required<...>` options record a `RetryManager` holds after its
constructor applied the `||` defaults. -/
structure ManagerOptions where
  maxAttempts : Nat
  baseDelay : ℚ
  backoffMultiplier : ℚ
  retryableErrors : List ErrorType
deriving Repr

/-- The defaulting in `RetryManager`'s constructor (`options.maxAttempts
|| 3`, `options.baseDelay || 1000`, `options.backoffMultiplier || 2`,
`options.retryableErrors || [...]`; an array is always truthy, so only
`undefined` falls back for the list). -/
def resolveOptions (o : RetryOptions) : ManagerOptions :=
  { maxAttempts := jsNatOr o.maxAttempts 3,
    baseDelay := jsRatOr o.baseDelay 1000,
    backoffMultiplier := jsRatOr o.backoffMultiplier 2,
    retryableErrors := o.retryableErrors.getD defaultRetryableErrors }

/-- The initial `this.state` assigned in `RetryManager`'s constructor. -/
def initState (o : ManagerOptions) : RetryState :=
  { attempt := 0, maxAttempts := o.maxAttempts, lastError := none,
    isRetrying := false, nextRetryDelay := o.baseDelay }

/-- A freshly constructed `RetryManager`'s state. -/
def mkRetryManager (o : RetryOptions) : RetryState :=
  initState (resolveOptions o)

/-- Observable events of one `RetryManager` method call. -/
inductive MEvent where
  | opCall
  | onRetry (attempt : Nat) (e : AppError)
  | onMaxAttemptsReached (e : AppError)
deriving Repr

/-- Result of a `RetryManager.execute`/`retry` call: a resolved value, a
rejection with `new EnhancedError(appError)`, or a rejection with a plain
`new Error(msg)`. -/
inductive MResult (T : Type) where
  | ok (t : T)
  | enhanced (e : AppError)
  | jsError (msg : String)
deriving Repr

/-- The message of the rejection thrown by `RetryManager.retry` when
`canRetry()` is false. -/
def cannotRetryMsg : String :=
  "Cannot retry: operation is not retryable or max attempts reached"

namespace RetryManager

/-- Embeds `RetryManager.calculateDelay`. -/
def calculateDelay (o : ManagerOptions) (attempt : Nat) : ℚ :=
  o.baseDelay * o.backoffMultiplier ^ (attempt - 1)

/-- Embeds `RetryManager.canRetry`: `lastError !== null && attempt < maxAttempts
&& isRetryableError(lastError) && !isRetrying`. -/
def canRetry (o : ManagerOptions) (s : RetryState) : Bool :=
  match s.lastError with
  | none => false
  | some e =>
      decide (s.attempt < s.maxAttempts) && isRetryableError e o.retryableErrors
        && !s.isRetrying

/-- Embeds `RetryManager.execute`: sets `attempt := 1`, clears `isRetrying` and
`lastError`, runs the operation once (modelled by its outcome), and on
failure stores the classified error and rethrows it wrapped. -/
def execute {T : Type} (outcome : Except ErrValue T) (s : RetryState) :
    MResult T × RetryState × List MEvent :=
  let s := { s with attempt := 1, isRetrying := false, lastError := none }
  match outcome with
  | .ok t => (.ok t, s, [.opCall])
  | .error failure =>
      let processedError := processError failure
      (.enhanced processedError, { s with lastError := some processedError }, [.opCall])

/-- Embeds `RetryManager.retry`: throws `cannotRetryMsg` unless `canRetry()`;
otherwise increments `attempt`, sets `isRetrying`, stores the next delay
computed at the incremented attempt, fires `onRetry(attempt, lastError!)`,
and runs the operation (the `getD` default models the `lastError!`
non-null assertion, unreachable when `canRetry()` holds). On failure it
stores the reclassified error, clears `isRetrying`, and fires
`onMaxAttemptsReached` when `attempt >= maxAttempts` before rethrowing. -/
def retry {T : Type} (o : ManagerOptions) (outcome : Except ErrValue T)
    (s : RetryState) : MResult T × RetryState × List MEvent :=
  if canRetry o s then
    let lastE := s.lastError.getD ⟨.UNKNOWN_ERROR, "", none, none, true⟩
    let a := s.attempt + 1
    let s1 :=
      { s with
        attempt := a
        isRetrying := true
        nextRetryDelay := calculateDelay o a }
    match outcome with
    | .ok t =>
        (.ok t, { s1 with isRetrying := false, lastError := none },
         [.onRetry a lastE, .opCall])
    | .error failure =>
        let processedError := processError failure
        let s2 := { s1 with lastError := some processedError, isRetrying := false }
        if s1.maxAttempts ≤ a then
          (.enhanced processedError, s2,
           [.onRetry a lastE, .opCall, .onMaxAttemptsReached processedError])
        else
          (.enhanced processedError, s2, [.onRetry a lastE, .opCall])
  else
    (.jsError cannotRetryMsg, s, [])

/-- Embeds `RetryManager.reset`: overwrites the whole state with the initial
record, regardless of the current state. -/
def reset (o : ManagerOptions) (_s : RetryState) : RetryState :=
  initState o

end RetryManager

/-- The fully-defaulted manager options (`maxAttempts 3, baseDelay 1000,
backoffMultiplier 2`, default retryable kinds). -/
def mgrDefaults : ManagerOptions := resolveOptions {}

/-- The manager state after a failed `execute()` of an operation rejecting
with a rate-limited failure, starting from a freshly constructed
manager with default options. -/
def s_afterFail : RetryState :=
  (RetryManager.execute (Except.error rateLimited : Except ErrValue Unit)
    (mkRetryManager {})).2.1

/-- C6: for every manager state, `canRetry()` is true iff `lastError` is
non-null, `attempt < maxAttempts`, the last error is retryable and of a
kind in the policy's retryable kinds, and no retry is in flight; in
particular a `retry()` call made while `isRetrying` is true is rejected
with the "cannot retry" error and changes nothing. -/
theorem manager_canRetry_characterization (o : ManagerOptions) (s : RetryState)
    (outcome : Except ErrValue Unit) :
    (RetryManager.canRetry o s = true ↔
      ∃ e, s.lastError = some e ∧ s.attempt < s.maxAttempts ∧
        e.retryable = true ∧ e.type ∈ o.retryableErrors ∧ s.isRetrying = false) ∧
    (s.isRetrying = true →
      RetryManager.retry o outcome s = (.jsError cannotRetryMsg, s, [])) := by
  have hchar : RetryManager.canRetry o s = true ↔
      ∃ e, s.lastError = some e ∧ s.attempt < s.maxAttempts ∧
        e.retryable = true ∧ e.type ∈ o.retryableErrors ∧ s.isRetrying = false := by
    cases hE : s.lastError with
    | none => simp [RetryManager.canRetry, hE]
    | some e =>
        simp [RetryManager.canRetry, hE, isRetryableError, List.contains, and_assoc]
  refine ⟨hchar, fun hret => ?_⟩
  have hfalse : RetryManager.canRetry o s = false := by
    rcases h : RetryManager.canRetry o s with _ | _
    · rfl
    · obtain ⟨e, -, -, -, -, h5⟩ := hchar.mp h
      rw [hret] at h5
      exact absurd h5 (by decide)
  simp [RetryManager.retry, hfalse]

theorem manager_canRetry_characterization_witness :
    (RetryManager.canRetry mgrDefaults { s_afterFail with isRetrying := true } = true ↔
      ∃ e, ({ s_afterFail with isRetrying := true } : RetryState).lastError = some e ∧
        ({ s_afterFail with isRetrying := true } : RetryState).attempt <
          ({ s_afterFail with isRetrying := true } : RetryState).maxAttempts ∧
        e.retryable = true ∧ e.type ∈ mgrDefaults.retryableErrors ∧
        ({ s_afterFail with isRetrying := true } : RetryState).isRetrying = false) ∧
    RetryManager.retry mgrDefaults (Except.ok () : Except ErrValue Unit)
        { s_afterFail with isRetrying := true } =
      (.jsError cannotRetryMsg, { s_afterFail with isRetrying := true }, []) := by
  obtain ⟨h1, h2⟩ :=
    manager_canRetry_characterization mgrDefaults { s_afterFail with isRetrying := true }
      (Except.ok ())
  exact ⟨h1, h2 rfl⟩

/-- C10: `retry()` on a freshly constructed manager (no prior `execute()`)
rejects with the "cannot retry" error, never invokes the operation (the
event trace is empty), and returns the state unchanged. -/
theorem manager_fresh_retry_rejects (opts : RetryOptions)
    (outcome : Except ErrValue Unit) :
    RetryManager.retry (resolveOptions opts) outcome (mkRetryManager opts) =
      (.jsError cannotRetryMsg, mkRetryManager opts, []) := by
  have hc : RetryManager.canRetry (resolveOptions opts) (mkRetryManager opts) = false := by
    simp [RetryManager.canRetry, mkRetryManager, initState]
  simp [RetryManager.retry, hc]

/-- Counterexample to C7: for the policy `maxAttempts = 3, baseDelayMs = 0`
(a policy the claim admits, since it only requires `baseDelayMs ≥ 0`), the
freshly constructed manager's state is NOT the claimed snapshot with
`nextRetryDelayMs = policy.baseDelayMs = 0`: the constructor's
`options.baseDelay || 1000` treats `0` as falsy and stores `1000`. -/
theorem manager_init_state_cex :
    mkRetryManager { maxAttempts := some 3, baseDelay := some 0 } ≠
      { attempt := 0, maxAttempts := 3, lastError := none, isRetrying := false,
        nextRetryDelay := 0 } := by
  intro h
  have h' := congrArg RetryState.nextRetryDelay h
  norm_num [mkRetryManager, resolveOptions, initState, jsRatOr] at h'

/-- C7 (amended): for every policy with `maxAttempts ≥ 1` and
`baseDelayMs > 0` (a zero base delay is treated as absent by the
constructor's `||` defaulting and replaced by 1000), the fresh manager's
state is exactly `{attempt := 0, maxAttempts, lastError := none,
isRetrying := false, nextRetryDelay := baseDelay}`, and `reset()` restores
exactly that snapshot from any state whatsoever. -/
theorem manager_init_state_reset (ma : Nat) (bd : ℚ) (rks : Option (List ErrorType))
    (hma : 1 ≤ ma) (hbd : 0 < bd) :
    mkRetryManager
        { maxAttempts := some ma, baseDelay := some bd,
          backoffMultiplier := none, retryableErrors := rks } =
      { attempt := 0, maxAttempts := ma, lastError := none, isRetrying := false,
        nextRetryDelay := bd } ∧
    ∀ s : RetryState,
      RetryManager.reset
          (resolveOptions
            { maxAttempts := some ma, baseDelay := some bd,
              backoffMultiplier := none, retryableErrors := rks }) s =
        { attempt := 0, maxAttempts := ma, lastError := none, isRetrying := false,
          nextRetryDelay := bd } := by
  have hma' : ma ≠ 0 := by omega
  have hbd' : bd ≠ 0 := ne_of_gt hbd
  constructor
  · simp [mkRetryManager, resolveOptions, initState, jsNatOr, jsRatOr, hma', hbd']
  · intro s
    simp [RetryManager.reset, resolveOptions, initState, jsNatOr, jsRatOr, hma', hbd']

theorem manager_init_state_reset_witness :
    mkRetryManager
        { maxAttempts := some 3, baseDelay := some 1000,
          backoffMultiplier := none, retryableErrors := none } =
      { attempt := 0, maxAttempts := 3, lastError := none, isRetrying := false,
        nextRetryDelay := 1000 } ∧
    RetryManager.reset
        (resolveOptions
          { maxAttempts := some 3, baseDelay := some 1000,
            backoffMultiplier := none, retryableErrors := none }) s_afterFail =
      { attempt := 0, maxAttempts := 3, lastError := none, isRetrying := false,
        nextRetryDelay := 1000 } := by
  obtain ⟨h1, h2⟩ :=
    manager_init_state_reset 3 1000 none (by norm_num) (by norm_num)
  exact ⟨h1, h2 s_afterFail⟩

/-- Counterexample to C8: with the default policy (`baseDelay 1000,
backoffMultiplier 2, maxAttempts 3`), after a failed `execute()`
(attempt 1) the first `retry()` runs attempt 2 but stores
`nextRetryDelay = 2000 = baseDelay * multiplier^(2-1)`, not the
`baseDelay = 1000` the claim asserts (the Engine's delay before
attempt 2). -/
theorem manager_retry_delay_cex :
    ((RetryManager.retry mgrDefaults (Except.ok () : Except ErrValue Unit)
        s_afterFail).2.1).nextRetryDelay = 2000 ∧
    ((RetryManager.retry mgrDefaults (Except.ok () : Except ErrValue Unit)
        s_afterFail).2.1).nextRetryDelay ≠ 1000 := by
  have hc : RetryManager.canRetry mgrDefaults s_afterFail = true := by decide
  have hv : ((RetryManager.retry mgrDefaults (Except.ok () : Except ErrValue Unit)
      s_afterFail).2.1).nextRetryDelay = 2000 := by
    simp only [RetryManager.retry, hc, if_true]
    norm_num [RetryManager.calculateDelay, mgrDefaults, resolveOptions, jsRatOr,
      s_afterFail, RetryManager.execute, mkRetryManager, initState]
  exact ⟨hv, by rw [hv]; norm_num⟩

/-- C8 (amended): when `retry()` proceeds (`canRetry()` true), the value it
stores in `nextRetryDelayMs` is `baseDelay * backoffMultiplier ^ (a - 1)`
where `a = attempt + 1` is the attempt about to run — under the Engine's
schedule this is the delay before attempt `a + 1`, i.e. the delay that
would apply to the retry after the one now running, not to the attempt
about to run; in particular the first `retry()` after a failed `execute()`
stores `baseDelay * backoffMultiplier` (2000 with the defaults), not
`baseDelay`. -/
theorem manager_retry_delay (o : ManagerOptions) (s : RetryState)
    (outcome : Except ErrValue Unit)
    (h : RetryManager.canRetry o s = true) :
    ((RetryManager.retry o outcome s).2.1).nextRetryDelay =
      o.baseDelay * o.backoffMultiplier ^ s.attempt := by
  simp only [RetryManager.retry, h, if_true, RetryManager.calculateDelay]
  cases outcome with
  | ok t => rfl
  | error f =>
      by_cases hm : s.maxAttempts ≤ s.attempt + 1
      · simp [hm]
      · simp [hm]

theorem manager_retry_delay_witness :
    ((RetryManager.retry mgrDefaults (Except.ok () : Except ErrValue Unit)
        s_afterFail).2.1).nextRetryDelay =
      mgrDefaults.baseDelay * mgrDefaults.backoffMultiplier ^ s_afterFail.attempt :=
  manager_retry_delay mgrDefaults s_afterFail (Except.ok ()) (by decide)

/-- C4: the classifier is a total function: for every value in its input
domain (already-canonical records, wrapped `EnhancedError`s,
API-response-shaped objects, native exceptions, and arbitrary other
values) `processError` returns a canonical `AppError` — a record with its
required `type`, `message` and `retryable` fields. Totality (hence "never
throws") is structural in this embedding: `processError` is a total Lean
function into `AppError`. -/
theorem classifier_total (v : ErrValue) :
    ∃ k : ErrorType, ∃ m : String, ∃ r : Bool,
      (processError v).type = k ∧ (processError v).message = m ∧
        (processError v).retryable = r :=
  ⟨_, _, _, rfl, rfl, rfl⟩

/-- C5: the status-code mapping of an API-response-shaped failure:
`401` yields `API_KEY_INVALID` when the message contains `"API key"` and
`API_KEY_MISSING` otherwise (both non-retryable); `429` yields
`API_RATE_LIMIT` (retryable); `0` and `408` yield `NETWORK_ERROR`
(retryable); `400` yields `API_CONTENT_POLICY` when the message mentions
`"content policy"` and `VALIDATION_ERROR` otherwise (both non-retryable);
any other or missing status code yields `API_GENERAL_ERROR` (retryable). -/
theorem classifier_statusCode_map (m1 m2 m3 m4 m5 : String) (sc : Int)
    (h1 : includes m1 "API key" = true)
    (h2 : includes m2 "API key" = false)
    (h3 : includes m3 "content policy" = true)
    (h4 : includes m4 "content policy" = false)
    (h5 : sc ∉ ([401, 429, 400, 0, 408] : List Int)) :
    ((processError (.apiResponse ⟨false, some m1, some 401⟩)).type = .API_KEY_INVALID ∧
      (processError (.apiResponse ⟨false, some m1, some 401⟩)).retryable = false) ∧
    ((processError (.apiResponse ⟨false, some m2, some 401⟩)).type = .API_KEY_MISSING ∧
      (processError (.apiResponse ⟨false, some m2, some 401⟩)).retryable = false) ∧
    ((processError (.apiResponse ⟨false, some m5, some 429⟩)).type = .API_RATE_LIMIT ∧
      (processError (.apiResponse ⟨false, some m5, some 429⟩)).retryable = true) ∧
    ((processError (.apiResponse ⟨false, some m5, some 0⟩)).type = .NETWORK_ERROR ∧
      (processError (.apiResponse ⟨false, some m5, some 0⟩)).retryable = true) ∧
    ((processError (.apiResponse ⟨false, some m5, some 408⟩)).type = .NETWORK_ERROR ∧
      (processError (.apiResponse ⟨false, some m5, some 408⟩)).retryable = true) ∧
    ((processError (.apiResponse ⟨false, some m3, some 400⟩)).type = .API_CONTENT_POLICY ∧
      (processError (.apiResponse ⟨false, some m3, some 400⟩)).retryable = false) ∧
    ((processError (.apiResponse ⟨false, some m4, some 400⟩)).type = .VALIDATION_ERROR ∧
      (processError (.apiResponse ⟨false, some m4, some 400⟩)).retryable = false) ∧
    ((processError (.apiResponse ⟨false, some m5, some sc⟩)).type = .API_GENERAL_ERROR ∧
      (processError (.apiResponse ⟨false, some m5, some sc⟩)).retryable = true) ∧
    ((processError (.apiResponse ⟨false, some m5, none⟩)).type = .API_GENERAL_ERROR ∧
      (processError (.apiResponse ⟨false, some m5, none⟩)).retryable = true) := by
  refine ⟨?_, ?_, ?_, ?_, ?_, ?_, ?_, ?_, ?_⟩
  · by_cases hm : m1 = ""
    · subst hm; exact absurd h1 (by decide)
    · simp [processError, processApiResponseError, jsStrOr, hm, h1]
  · by_cases hm : m2 = ""
    · subst hm
      have hfb : includes "Unknown API error" "API key" = false := by decide
      simp [processError, processApiResponseError, jsStrOr, hfb]
    · simp [processError, processApiResponseError, jsStrOr, hm, h2]
  · simp [processError, processApiResponseError]
  · simp [processError, processApiResponseError]
  · simp [processError, processApiResponseError]
  · by_cases hm : m3 = ""
    · subst hm; exact absurd h3 (by decide)
    · simp [processError, processApiResponseError, jsStrOr, hm, h3]
  · by_cases hm : m4 = ""
    · subst hm
      have hfb : includes "Unknown API error" "content policy" = false := by decide
      simp [processError, processApiResponseError, jsStrOr, hfb]
    · simp [processError, processApiResponseError, jsStrOr, hm, h4]
  · simp only [List.mem_cons, List.not_mem_nil, or_false, not_or] at h5
    obtain ⟨n1, n2, n3, n4, n5⟩ := h5
    constructor
    · simp only [processError, Bool.false_eq_true, if_false, processApiResponseError]
      split <;> simp_all
    · simp only [processError, Bool.false_eq_true, if_false, processApiResponseError]
      split <;> simp_all
  · simp [processError, processApiResponseError]

theorem classifier_statusCode_map_witness :
    ((processError (.apiResponse ⟨false, some "Invalid API key", some 401⟩)).type
        = .API_KEY_INVALID ∧
      (processError (.apiResponse ⟨false, some "Invalid API key", some 401⟩)).retryable
        = false) ∧
    ((processError (.apiResponse ⟨false, some "Unauthorized", some 401⟩)).type
        = .API_KEY_MISSING ∧
      (processError (.apiResponse ⟨false, some "Unauthorized", some 401⟩)).retryable
        = false) ∧
    ((processError (.apiResponse ⟨false, some "err", some 429⟩)).type = .API_RATE_LIMIT ∧
      (processError (.apiResponse ⟨false, some "err", some 429⟩)).retryable = true) ∧
    ((processError (.apiResponse ⟨false, some "err", some 0⟩)).type = .NETWORK_ERROR ∧
      (processError (.apiResponse ⟨false, some "err", some 0⟩)).retryable = true) ∧
    ((processError (.apiResponse ⟨false, some "err", some 408⟩)).type = .NETWORK_ERROR ∧
      (processError (.apiResponse ⟨false, some "err", some 408⟩)).retryable = true) ∧
    ((processError (.apiResponse ⟨false, some "violates content policy", some 400⟩)).type
        = .API_CONTENT_POLICY ∧
      (processError (.apiResponse ⟨false, some "violates content policy", some 400⟩)).retryable
        = false) ∧
    ((processError (.apiResponse ⟨false, some "Bad request", some 400⟩)).type
        = .VALIDATION_ERROR ∧
      (processError (.apiResponse ⟨false, some "Bad request", some 400⟩)).retryable
        = false) ∧
    ((processError (.apiResponse ⟨false, some "err", some 500⟩)).type
        = .API_GENERAL_ERROR ∧
      (processError (.apiResponse ⟨false, some "err", some 500⟩)).retryable = true) ∧
    ((processError (.apiResponse ⟨false, some "err", none⟩)).type = .API_GENERAL_ERROR ∧
      (processError (.apiResponse ⟨false, some "err", none⟩)).retryable = true) :=
  classifier_statusCode_map "Invalid API key" "Unauthorized" "violates content policy"
    "Bad request" "err" 500 (by decide) (by decide) (by decide) (by decide) (by decide)

/-- The kind → retryable table asserted by the spec invariant: `true` for
`NETWORK_ERROR`, `API_RATE_LIMIT`, `API_GENERAL_ERROR`, `UNKNOWN_ERROR`;
`false` for all other kinds (the classifier never constructs a
`PDF_GENERATION_ERROR`). -/
def retryableOfKind : ErrorType → Bool
  | .NETWORK_ERROR => true
  | .API_RATE_LIMIT => true
  | .API_GENERAL_ERROR => true
  | .UNKNOWN_ERROR => true
  | _ => false

/-- Whether a classifier input hits one of the two pass-through branches of
`processError` (an `EnhancedError` or an already-canonical record), which
return the carried record unchanged. -/
def isCanonicalPassThrough : ErrValue → Bool
  | .enhanced _ => true
  | .appError _ => true
  | _ => false

/-- Counterexample to C9: the classifier's pass-through branch returns an
already-canonical record unchanged, so feeding it an `AppError`-shaped
value with kind `NETWORK_ERROR` and `retryable = false` yields an output
whose retryable flag differs from the `retryable = true` the claim's table
requires for that kind (and from the flag of another output of the same
kind): `retryable` is not a function of `kind` over all classifier
outputs. -/
theorem classifier_retryable_cex :
    (processError (.appError ⟨.NETWORK_ERROR, "boom", none, none, false⟩)).type
      = .NETWORK_ERROR ∧
    (processError (.appError ⟨.NETWORK_ERROR, "boom", none, none, false⟩)).retryable
      = false ∧
    (processError (.apiResponse ⟨false, some "timeout", some 0⟩)).type
      = .NETWORK_ERROR ∧
    (processError (.apiResponse ⟨false, some "timeout", some 0⟩)).retryable
      = true := by
  decide

/-- C9 (amended): for every classifier output *constructed* by the
classifier — i.e. on any input that is not one of the two pass-through
branches (`EnhancedError` / already-canonical record) — the `retryable`
flag is a function of the output's kind alone, per the table
`retryableOfKind` (true exactly for `NETWORK_ERROR`, `API_RATE_LIMIT`,
`API_GENERAL_ERROR`, `UNKNOWN_ERROR`); it depends on nothing but the
input value (in particular not on attempt count or timing, which
`processError` does not receive). -/
theorem classifier_retryable_of_kind (v : ErrValue)
    (h : isCanonicalPassThrough v = false) :
    (processError v).retryable = retryableOfKind (processError v).type := by
  cases v with
  | enhanced e => simp [isCanonicalPassThrough] at h
  | appError e => simp [isCanonicalPassThrough] at h
  | apiResponse r =>
      by_cases hs : r.success
      · simp [processError, hs, retryableOfKind]
      · simp only [processError, hs, Bool.false_eq_true, if_false]
        unfold processApiResponseError
        split
        · dsimp only
          split <;> rfl
        · rfl
        · dsimp only
          split <;> rfl
        · rfl
        · rfl
        · rfl
  | jsError e =>
      simp only [processError]
      unfold processJavaScriptError
      split
      · rfl
      · split
        · rfl
        · rfl
  | other str => rfl

theorem classifier_retryable_of_kind_witness :
    (processError (.apiResponse ⟨false, some "timeout", some 0⟩)).retryable =
      retryableOfKind (processError (.apiResponse ⟨false, some "timeout", some 0⟩)).type :=
  classifier_retryable_of_kind (.apiResponse ⟨false, some "timeout", some 0⟩) rfl
